import Mathlib

/-!
Verification of the geometry engine of the spooling-guide technical-drawing
repository.  The Python module `src/spooling_guide/geometry.py` is shallowly
embedded over the real numbers: points are pairs of reals, `numpy` arrays of
points become lists, the module-level constant store
`src/spooling_guide/specifications.py` becomes a structure `Specs` passed to
each function (the Python functions read the constants as module globals), and
Python dictionaries with fixed keys become structures.  Floating point is
modelled by exact real arithmetic.
-/

noncomputable section

open Real

/-- Embedding of Python `math.radians`: degrees to radians. -/
def radians (d : ℝ) : ℝ := d * Real.pi / 180

/-- Embedding of Python `math.degrees`: radians to degrees. -/
def degrees (r : ℝ) : ℝ := r * 180 / Real.pi

/-- Embedding of Python `math.atan2 y x` (result in the correct quadrant). -/
def atan2 (y x : ℝ) : ℝ :=
  if 0 < x then Real.arctan (y / x)
  else if x < 0 then
    (if 0 ≤ y then Real.arctan (y / x) + Real.pi else Real.arctan (y / x) - Real.pi)
  else
    (if 0 < y then Real.pi / 2 else if y < 0 then -(Real.pi / 2) else 0)

/-- Embedding of `numpy.linspace s e n`: `n` evenly spaced samples from `s`
to `e`, endpoints included. -/
def linspace (s e : ℝ) (n : ℕ) : List ℝ :=
  (List.range n).map (fun (i : ℕ) => s + (i : ℝ) * (e - s) / ((n : ℝ) - 1))

/-- Euclidean distance in the plane (used by the spec's phrases such as
"lies at distance ... from the arc center"). -/
def planeDist (p q : ℝ × ℝ) : ℝ :=
  Real.sqrt ((p.1 - q.1) ^ 2 + (p.2 - q.2) ^ 2)

/-- The dimensional constant store of
`src/spooling_guide/specifications.py`, as an immutable record.  Only the
constants read by the geometry module are included. -/
structure Specs where
  OUTER_RING_DIAMETER : ℝ
  CENTRAL_OPENING_RADIUS : ℝ
  ARM_ANGULAR_SPACING : ℝ
  ARM_WIDTH_INNER : ℝ
  ARM_WIDTH_OUTER : ℝ
  ARM_INNER_RADIUS : ℝ
  ARM_OUTER_RADIUS : ℝ
  ARM_END_ARC_RADIUS : ℝ
  CENTRAL_HOLE_X : ℝ
  CENTRAL_HOLE_Y : ℝ
  INNER_HOLE_COUNT : ℕ
  INNER_HOLE_DIAMETER : ℝ
  INNER_HOLE_PCD : ℝ
  OUTER_HOLE_PCD : ℝ
  CORNER_FILLET_RADIUS : ℝ
  ARM_ANGLES : List ℝ

/-- `OUTER_HOLE_ANGLES = ARM_ANGLES` in `specifications.py`. -/
def Specs.OUTER_HOLE_ANGLES (s : Specs) : List ℝ := s.ARM_ANGLES

/-- `INNER_HOLE_ANGULAR_SPACING = 360.0 / INNER_HOLE_COUNT`. -/
def Specs.INNER_HOLE_ANGULAR_SPACING (s : Specs) : ℝ :=
  360 / (s.INNER_HOLE_COUNT : ℝ)

/-- `INNER_HOLE_ANGLES = [i * INNER_HOLE_ANGULAR_SPACING for i in range(INNER_HOLE_COUNT)]`. -/
def Specs.INNER_HOLE_ANGLES (s : Specs) : List ℝ :=
  (List.range s.INNER_HOLE_COUNT).map (fun (i : ℕ) => (i : ℝ) * s.INNER_HOLE_ANGULAR_SPACING)

/-- The concrete constant values of `specifications.py` (a faithful copy of
the numeric literals of that file). -/
def specifications : Specs where
  OUTER_RING_DIAMETER := 10
  CENTRAL_OPENING_RADIUS := 250
  ARM_ANGULAR_SPACING := 90
  ARM_WIDTH_INNER := 50
  ARM_WIDTH_OUTER := 100
  ARM_INNER_RADIUS := 250
  ARM_OUTER_RADIUS := 505
  ARM_END_ARC_RADIUS := 532.5
  CENTRAL_HOLE_X := 0
  CENTRAL_HOLE_Y := 0
  INNER_HOLE_COUNT := 8
  INNER_HOLE_DIAMETER := 8
  INNER_HOLE_PCD := 90
  OUTER_HOLE_PCD := 1020
  CORNER_FILLET_RADIUS := 5
  ARM_ANGLES := [0, 90, 180, 270]

/-- Radius of the inner surface of the welded outer ring.  Modelled from the
spec: the ring rod of diameter `OUTER_RING_DIAMETER` is centred on the circle
of radius `OUTER_HOLE_PCD / 2`, so its inner surface sits at
`OUTER_HOLE_PCD / 2 - OUTER_RING_DIAMETER / 2`.  The code never computes this
quantity; it is needed to state the spec's manufacturing-clearance claim. -/
def Specs.ring_inner_radius (s : Specs) : ℝ :=
  s.OUTER_HOLE_PCD / 2 - s.OUTER_RING_DIAMETER / 2

/-- Embedding of `calculate_concave_arc_geometry` from `geometry.py`
(lines 225-254): returns `(arc_center, start_angle, end_angle)`. -/
def calculate_concave_arc_geometry (spec : Specs) (arm_angle_rad half_width_outer : ℝ) :
    (ℝ × ℝ) × ℝ × ℝ :=
  let arc_radius := spec.ARM_END_ARC_RADIUS
  let arc_center_distance := spec.OUTER_HOLE_PCD / 2 + arc_radius - 100
  let arc_center : ℝ × ℝ :=
    (arc_center_distance * Real.cos arm_angle_rad, arc_center_distance * Real.sin arm_angle_rad)
  let angular_extent := 2 * atan2 half_width_outer arc_radius
  let start_angle := arm_angle_rad - angular_extent / 2
  let end_angle := arm_angle_rad + angular_extent / 2
  (arc_center, start_angle, end_angle)

/-- Embedding of `find_line_arc_intersection` from `geometry.py`
(lines 257-288).  Note that (as in the source) the result depends on neither
`start_point` nor `width_offset_inner` nor `arc_center`: the function places
the point at the fixed radius `0.85 * OUTER_HOLE_PCD / 2`. -/
def find_line_arc_intersection (spec : Specs) (start_point : ℝ × ℝ)
    (arm_angle_rad width_offset_inner width_offset_outer : ℝ) (arc_center : ℝ × ℝ) : ℝ × ℝ :=
  let inner_radius := spec.CENTRAL_OPENING_RADIUS
  let outer_radius_estimate := spec.OUTER_HOLE_PCD / 2
  let width_change_rate :=
    (width_offset_outer - width_offset_inner) / (outer_radius_estimate - inner_radius)
  let intersection_radius := outer_radius_estimate * 0.85
  let intersection_angle := arm_angle_rad + atan2 width_offset_outer intersection_radius
  (intersection_radius * Real.cos intersection_angle,
   intersection_radius * Real.sin intersection_angle)

/-- Embedding of `generate_concave_arc_between_points` from `geometry.py`
(lines 291-322); `num_points` defaults to 30 at the call site. -/
def generate_concave_arc_between_points (spec : Specs) (arc_center start_point end_point : ℝ × ℝ)
    (num_points : ℕ) : List (ℝ × ℝ) :=
  let start_vector := (start_point.1 - arc_center.1, start_point.2 - arc_center.2)
  let end_vector := (end_point.1 - arc_center.1, end_point.2 - arc_center.2)
  let start_angle := atan2 start_vector.2 start_vector.1
  let end_angle0 := atan2 end_vector.2 end_vector.1
  let end_angle := if end_angle0 < start_angle then end_angle0 + 2 * Real.pi else end_angle0
  (linspace start_angle end_angle num_points).map
    (fun angle => (arc_center.1 + spec.ARM_END_ARC_RADIUS * Real.cos angle,
                   arc_center.2 + spec.ARM_END_ARC_RADIUS * Real.sin angle))

/-- The four junction tags used (as strings) by
`calculate_fillet_center_at_junction`. -/
inductive PositionType
| inner_left
| inner_right
| outer_left
| outer_right
deriving DecidableEq

/-- Whether the Python string contains `'inner'`. -/
def PositionType.isInner : PositionType → Bool
| .inner_left => true
| .inner_right => true
| _ => false

/-- Whether the Python string contains `'left'`. -/
def PositionType.isLeft : PositionType → Bool
| .inner_left => true
| .outer_left => true
| _ => false

/-- Embedding of `calculate_fillet_center_at_junction` from `geometry.py`
(lines 363-392). -/
def calculate_fillet_center_at_junction (vertex : ℝ × ℝ)
    (arm_angle_rad fillet_radius : ℝ) (position_type : PositionType) : ℝ × ℝ :=
  let offset_angle0 :=
    if position_type.isInner then arm_angle_rad + Real.pi else arm_angle_rad
  let offset_angle :=
    if position_type.isLeft then offset_angle0 + Real.pi / 4 else offset_angle0 - Real.pi / 4
  (vertex.1 + fillet_radius * Real.cos offset_angle,
   vertex.2 + fillet_radius * Real.sin offset_angle)

/-- Embedding of `generate_fillet_arc_points` from `geometry.py`
(lines 395-415); `num_points` defaults to 10 at the call site. -/
def generate_fillet_arc_points (center : ℝ × ℝ) (radius : ℝ) (num_points : ℕ) : List (ℝ × ℝ) :=
  (linspace 0 (Real.pi / 2) num_points).map
    (fun angle => (center.1 + radius * Real.cos angle, center.2 + radius * Real.sin angle))

/-- The dictionary returned by `calculate_precise_fillet_data`. -/
structure FilletData where
  centers : List (ℝ × ℝ)
  arcs : List (List (ℝ × ℝ))
  radius : ℝ

/-- Embedding of `calculate_precise_fillet_data` from `geometry.py`
(lines 325-360). -/
def calculate_precise_fillet_data (spec : Specs) (inner_left inner_right outer_left outer_right : ℝ × ℝ)
    (arm_angle_rad : ℝ) : FilletData :=
  let fillet_radius := spec.CORNER_FILLET_RADIUS
  let inner_center_left :=
    calculate_fillet_center_at_junction inner_left arm_angle_rad fillet_radius .inner_left
  let inner_center_right :=
    calculate_fillet_center_at_junction inner_right arm_angle_rad fillet_radius .inner_right
  let outer_center_left :=
    calculate_fillet_center_at_junction outer_left arm_angle_rad fillet_radius .outer_left
  let outer_center_right :=
    calculate_fillet_center_at_junction outer_right arm_angle_rad fillet_radius .outer_right
  let centers := [inner_center_left, inner_center_right, outer_center_left, outer_center_right]
  { centers := centers
    arcs := centers.map (fun center => generate_fillet_arc_points center fillet_radius 10)
    radius := fillet_radius }

/-- Embedding of `assemble_arm_outline_with_fillets` from `geometry.py`
(lines 418-451). -/
def assemble_arm_outline_with_fillets (inner_left inner_right outer_left outer_right : ℝ × ℝ)
    (concave_arc_points : List (ℝ × ℝ)) (fillet_data : FilletData) : List (ℝ × ℝ) :=
  [inner_left, outer_left] ++ concave_arc_points ++ [outer_right, inner_right, inner_left]

/-- The inner-left vertex computed in step 1 of `calculate_arm_vertices`. -/
def arm_inner_left (spec : Specs) (angle_rad : ℝ) : ℝ × ℝ :=
  let inner_radius := spec.CENTRAL_OPENING_RADIUS
  let inner_left_angle := angle_rad + atan2 (spec.ARM_WIDTH_INNER / 2) inner_radius
  (inner_radius * Real.cos inner_left_angle, inner_radius * Real.sin inner_left_angle)

/-- The inner-right vertex computed in step 1 of `calculate_arm_vertices`. -/
def arm_inner_right (spec : Specs) (angle_rad : ℝ) : ℝ × ℝ :=
  let inner_radius := spec.CENTRAL_OPENING_RADIUS
  let inner_right_angle := angle_rad - atan2 (spec.ARM_WIDTH_INNER / 2) inner_radius
  (inner_radius * Real.cos inner_right_angle, inner_radius * Real.sin inner_right_angle)

/-- Embedding of `calculate_arm_vertices` from `geometry.py` (lines 20-69):
returns `(arm_outline_points, concave_arc_points, fillet_data)`. -/
def calculate_arm_vertices (spec : Specs) (arm_angle_deg : ℝ) :
    List (ℝ × ℝ) × List (ℝ × ℝ) × FilletData :=
  let angle_rad := radians arm_angle_deg
  let half_width_inner := spec.ARM_WIDTH_INNER / 2
  let half_width_outer := spec.ARM_WIDTH_OUTER / 2
  let inner_left := arm_inner_left spec angle_rad
  let inner_right := arm_inner_right spec angle_rad
  let arc_geom := calculate_concave_arc_geometry spec angle_rad half_width_outer
  let arc_center := arc_geom.1
  let left_intersection :=
    find_line_arc_intersection spec inner_left angle_rad half_width_inner half_width_outer arc_center
  let right_intersection :=
    find_line_arc_intersection spec inner_right angle_rad (-half_width_inner) (-half_width_outer) arc_center
  let concave_arc_points :=
    generate_concave_arc_between_points spec arc_center left_intersection right_intersection 30
  let fillet_data :=
    calculate_precise_fillet_data spec inner_left inner_right left_intersection right_intersection angle_rad
  let arm_outline_points :=
    assemble_arm_outline_with_fillets inner_left inner_right left_intersection right_intersection
      concave_arc_points fillet_data
  (arm_outline_points, concave_arc_points, fillet_data)

/-- The dictionary returned by `calculate_hole_coordinates`. -/
structure HoleCoords where
  central : List (ℝ × ℝ)
  inner : List (ℝ × ℝ)
  outer : List (ℝ × ℝ)

/-- Embedding of `calculate_hole_coordinates` from `geometry.py`
(lines 117-150); the Python accumulation loops become `List.map`. -/
def calculate_hole_coordinates (spec : Specs) : HoleCoords where
  central := [(spec.CENTRAL_HOLE_X, spec.CENTRAL_HOLE_Y)]
  inner := spec.INNER_HOLE_ANGLES.map
    (fun angle_deg => ((spec.INNER_HOLE_PCD / 2) * Real.cos (radians angle_deg),
                       (spec.INNER_HOLE_PCD / 2) * Real.sin (radians angle_deg)))
  outer := spec.OUTER_HOLE_ANGLES.map
    (fun angle_deg => ((spec.OUTER_HOLE_PCD / 2) * Real.cos (radians angle_deg),
                       (spec.OUTER_HOLE_PCD / 2) * Real.sin (radians angle_deg)))

/-- The dictionary returned by `calculate_overall_dimensions`. -/
structure OverallDims where
  overall_diameter : ℝ
  overall_radius : ℝ
  outer_ring_center_radius : ℝ
  central_opening_diameter : ℝ

/-- Embedding of `calculate_overall_dimensions` from `geometry.py`
(lines 153-172). -/
def calculate_overall_dimensions (spec : Specs) : OverallDims :=
  let outer_ring_center_radius := spec.OUTER_HOLE_PCD / 2
  let ring_radius := spec.OUTER_RING_DIAMETER / 2
  let overall_radius := outer_ring_center_radius + ring_radius
  let overall_diameter := 2 * overall_radius
  { overall_diameter := overall_diameter
    overall_radius := overall_radius
    outer_ring_center_radius := outer_ring_center_radius
    central_opening_diameter := 2 * spec.CENTRAL_OPENING_RADIUS }

/-- The outer-left corner of an arm, exactly as computed in step 3 of
`calculate_arm_vertices`: the value of
`find_line_arc_intersection(inner_left, angle_rad, half_width_inner, half_width_outer, arc_center)`. -/
def arm_outer_left (spec : Specs) (angle_rad : ℝ) : ℝ × ℝ :=
  find_line_arc_intersection spec (arm_inner_left spec angle_rad) angle_rad
    (spec.ARM_WIDTH_INNER / 2) (spec.ARM_WIDTH_OUTER / 2)
    (calculate_concave_arc_geometry spec angle_rad (spec.ARM_WIDTH_OUTER / 2)).1

/-- The outer-right corner of an arm, exactly as computed in step 3 of
`calculate_arm_vertices` (the width offsets are negated). -/
def arm_outer_right (spec : Specs) (angle_rad : ℝ) : ℝ × ℝ :=
  find_line_arc_intersection spec (arm_inner_right spec angle_rad) angle_rad
    (-(spec.ARM_WIDTH_INNER / 2)) (-(spec.ARM_WIDTH_OUTER / 2))
    (calculate_concave_arc_geometry spec angle_rad (spec.ARM_WIDTH_OUTER / 2)).1

/-- Reflection of the plane across the line through the origin whose
direction angle is `θ` (the arm centerline).  In matrix form this is the
standard reflection matrix `[[cos 2θ, sin 2θ], [sin 2θ, -cos 2θ]]`. -/
def reflectAcross (θ : ℝ) (p : ℝ × ℝ) : ℝ × ℝ :=
  (Real.cos (2 * θ) * p.1 + Real.sin (2 * θ) * p.2,
   Real.sin (2 * θ) * p.1 - Real.cos (2 * θ) * p.2)

/-- Modelled from the spec: `arm_width_at_radius` is called by
`test_geometry.py`, `visual_analysis.py` and `visual_validation_gold_standard.py`
but is not present in `geometry.py`.  Spec contract (section 4.1): for
`r <= inner_radius` return `width_inner`; for `r >= outer_radius` return
`width_outer`; otherwise the linear interpolation
`width_inner + (width_outer - width_inner) * (r - inner_radius) / (outer_radius - inner_radius)`,
with `inner_radius = ARM_INNER_RADIUS` and `outer_radius = ARM_OUTER_RADIUS`. -/
def arm_width_at_radius (spec : Specs) (r : ℝ) : ℝ :=
  if r ≤ spec.ARM_INNER_RADIUS then spec.ARM_WIDTH_INNER
  else if spec.ARM_OUTER_RADIUS ≤ r then spec.ARM_WIDTH_OUTER
  else spec.ARM_WIDTH_INNER + (spec.ARM_WIDTH_OUTER - spec.ARM_WIDTH_INNER) *
    (r - spec.ARM_INNER_RADIUS) / (spec.ARM_OUTER_RADIUS - spec.ARM_INNER_RADIUS)

/-- Quadratic coefficient `a = |direction|^2` of the line-circle equation. -/
def lci_a (direction : ℝ × ℝ) : ℝ := direction.1 ^ 2 + direction.2 ^ 2

/-- Quadratic coefficient `b = 2 (point - center) . direction`. -/
def lci_b (point direction circle_center : ℝ × ℝ) : ℝ :=
  2 * ((point.1 - circle_center.1) * direction.1 + (point.2 - circle_center.2) * direction.2)

/-- Quadratic coefficient `c = |point - center|^2 - radius^2`. -/
def lci_c (point circle_center : ℝ × ℝ) (circle_radius : ℝ) : ℝ :=
  (point.1 - circle_center.1) ^ 2 + (point.2 - circle_center.2) ^ 2 - circle_radius ^ 2

/-- Discriminant `b^2 - 4 a c` of the line-circle quadratic. -/
def lci_disc (point direction circle_center : ℝ × ℝ) (circle_radius : ℝ) : ℝ :=
  lci_b point direction circle_center ^ 2 -
    4 * lci_a direction * lci_c point circle_center circle_radius

/-- The point `point + t * direction` on the parametric line. -/
def line_point (point direction : ℝ × ℝ) (t : ℝ) : ℝ × ℝ :=
  (point.1 + t * direction.1, point.2 + t * direction.2)

/-- The smaller quadratic root `(-b - sqrt disc) / (2 a)`. -/
def lci_t1 (point direction circle_center : ℝ × ℝ) (circle_radius : ℝ) : ℝ :=
  (-(lci_b point direction circle_center) -
      Real.sqrt (lci_disc point direction circle_center circle_radius)) /
    (2 * lci_a direction)

/-- The larger quadratic root `(-b + sqrt disc) / (2 a)`. -/
def lci_t2 (point direction circle_center : ℝ × ℝ) (circle_radius : ℝ) : ℝ :=
  (-(lci_b point direction circle_center) +
      Real.sqrt (lci_disc point direction circle_center circle_radius)) /
    (2 * lci_a direction)

/-- Membership of a point on the circle of given center and radius. -/
def onCircle (circle_center : ℝ × ℝ) (circle_radius : ℝ) (p : ℝ × ℝ) : Prop :=
  (p.1 - circle_center.1) ^ 2 + (p.2 - circle_center.2) ^ 2 = circle_radius ^ 2

/-- Modelled from the spec: `line_circle_intersection` is called by
`test_geometry.py` but is not present in `geometry.py`.  Spec contract
(section 4.4): parametrize the line as `point + t * direction`, substitute
into the circle equation, solve the quadratic via its discriminant; negative
discriminant gives no intersection, zero gives the single tangency point,
positive gives the two points in increasing-`t` order; a degenerate
(zero-coefficient) line yields no intersection instead of a division by
zero. -/
def line_circle_intersection (point direction circle_center : ℝ × ℝ)
    (circle_radius : ℝ) : List (ℝ × ℝ) :=
  if lci_a direction = 0 then []
  else if lci_disc point direction circle_center circle_radius < 0 then []
  else if lci_disc point direction circle_center circle_radius = 0 then
    [line_point point direction
      (-(lci_b point direction circle_center) / (2 * lci_a direction))]
  else
    [line_point point direction (lci_t1 point direction circle_center circle_radius),
     line_point point direction (lci_t2 point direction circle_center circle_radius)]

/-- A copy of `specifications` whose `ARM_OUTER_RADIUS` has been enlarged to
600 mm so that the arm would interfere with the welded outer ring
(`ring_inner_radius = 505 < 600`). -/
def specsWithInterference : Specs where
  OUTER_RING_DIAMETER := 10
  CENTRAL_OPENING_RADIUS := 250
  ARM_ANGULAR_SPACING := 90
  ARM_WIDTH_INNER := 50
  ARM_WIDTH_OUTER := 100
  ARM_INNER_RADIUS := 250
  ARM_OUTER_RADIUS := 600
  ARM_END_ARC_RADIUS := 532.5
  CENTRAL_HOLE_X := 0
  CENTRAL_HOLE_Y := 0
  INNER_HOLE_COUNT := 8
  INNER_HOLE_DIAMETER := 8
  INNER_HOLE_PCD := 90
  OUTER_HOLE_PCD := 1020
  CORNER_FILLET_RADIUS := 5
  ARM_ANGLES := [0, 90, 180, 270]

/-- The messages appended by `validate_geometry`, with their interpolated
numeric data. -/
inductive GeomWarning
| arms_may_overlap (extent spacing : ℝ)
| inner_holes_may_overlap (spacing minimum : ℝ)

/-- The dictionary returned by `validate_geometry`. -/
structure ValidationResult where
  warnings : List GeomWarning
  errors : List GeomWarning
  geometry_valid : Bool

/-- Embedding of `validate_geometry` from `geometry.py` (lines 194-218).
The two conditional `warnings.append` calls become conditional singleton
lists; `errors` is never appended to. -/
def validate_geometry (spec : Specs) : ValidationResult :=
  let arm_angular_extent := degrees (2 * atan2 (spec.ARM_WIDTH_OUTER / 2) (spec.OUTER_HOLE_PCD / 2))
  let warnings1 : List GeomWarning :=
    if spec.ARM_ANGULAR_SPACING < arm_angular_extent then
      [.arms_may_overlap arm_angular_extent spec.ARM_ANGULAR_SPACING] else []
  let inner_hole_spacing := spec.INNER_HOLE_PCD * Real.pi / (spec.INNER_HOLE_COUNT : ℝ)
  let warnings2 : List GeomWarning :=
    if inner_hole_spacing < 2 * spec.INNER_HOLE_DIAMETER then
      [.inner_holes_may_overlap inner_hole_spacing (2 * spec.INNER_HOLE_DIAMETER)] else []
  let errors : List GeomWarning := []
  { warnings := warnings1 ++ warnings2
    errors := errors
    geometry_valid := errors.length == 0 }

end

/-! ## Helper lemmas -/

lemma atan2_of_pos (y x : ℝ) (hx : 0 < x) : atan2 y x = Real.arctan (y / x) := by
  simp [atan2, hx]

lemma atan2_neg_of_pos (y x : ℝ) (hx : 0 < x) : atan2 (-y) x = -atan2 y x := by
  rw [atan2_of_pos _ _ hx, atan2_of_pos _ _ hx, neg_div, Real.arctan_neg]

lemma planeDist_offset (v : ℝ × ℝ) (r a : ℝ) (hr : 0 ≤ r) :
    planeDist (v.1 + r * Real.cos a, v.2 + r * Real.sin a) v = r := by
  unfold planeDist
  have h : (v.1 + r * Real.cos a - v.1) ^ 2 + (v.2 + r * Real.sin a - v.2) ^ 2 = r ^ 2 := by
    have hsc := Real.sin_sq_add_cos_sq a
    ring_nf
    nlinarith [hsc]
  rw [h, Real.sqrt_sq hr]

lemma planeDist_polar (r a : ℝ) (hr : 0 ≤ r) :
    planeDist (r * Real.cos a, r * Real.sin a) (0, 0) = r := by
  have h := planeDist_offset (0, 0) r a hr
  simpa using h

/-- `reflectAcross θ` fixes the component along the direction `(cos θ, sin θ)`
and negates the component along the perpendicular `(-sin θ, cos θ)`: it is
the reflection across the arm centerline. -/
lemma reflectAcross_decomp (θ t s : ℝ) :
    reflectAcross θ (t * Real.cos θ - s * Real.sin θ, t * Real.sin θ + s * Real.cos θ) =
      (t * Real.cos θ + s * Real.sin θ, t * Real.sin θ - s * Real.cos θ) := by
  unfold reflectAcross
  have h := Real.sin_sq_add_cos_sq θ
  rw [Real.cos_two_mul, Real.sin_two_mul]
  simp only [Prod.mk.injEq]
  constructor
  · linear_combination (2 * t * Real.cos θ) * h
  · linear_combination (-(2 * s * Real.cos θ)) * h

/-- Reflection across the line at angle `θ` sends the polar point at angle
`θ + δ` to the polar point at angle `θ - δ` (same radius). -/
lemma reflectAcross_polar (θ δ r : ℝ) :
    reflectAcross θ (r * Real.cos (θ + δ), r * Real.sin (θ + δ)) =
      (r * Real.cos (θ - δ), r * Real.sin (θ - δ)) := by
  unfold reflectAcross
  have h : θ - δ = 2 * θ - (θ + δ) := by ring
  rw [h, Real.cos_sub, Real.sin_sub]
  simp only [Prod.mk.injEq]
  constructor
  · ring
  · ring

/-- The inner-left and inner-right vertices are mirror images across the arm
centerline, for every specification and every angle. -/
lemma reflect_inner_vertices (s : Specs) (θ : ℝ) :
    reflectAcross θ (arm_inner_left s θ) = arm_inner_right s θ := by
  simp only [arm_inner_left, arm_inner_right]
  exact reflectAcross_polar θ (atan2 (s.ARM_WIDTH_INNER / 2) s.CENTRAL_OPENING_RADIUS)
    s.CENTRAL_OPENING_RADIUS

/-- The two outer corners returned by `find_line_arc_intersection` are mirror
images across the arm centerline whenever the placement radius
`0.85 * OUTER_HOLE_PCD / 2` is positive. -/
lemma reflect_outer_corners (s : Specs) (θ : ℝ) (hρ : 0 < s.OUTER_HOLE_PCD / 2 * 0.85) :
    reflectAcross θ (arm_outer_left s θ) = arm_outer_right s θ := by
  have h := reflectAcross_polar θ
    (atan2 (s.ARM_WIDTH_OUTER / 2) (s.OUTER_HOLE_PCD / 2 * 0.85)) (s.OUTER_HOLE_PCD / 2 * 0.85)
  simp only [arm_outer_left, arm_outer_right, find_line_arc_intersection,
    atan2_neg_of_pos _ _ hρ, ← sub_eq_add_neg]
  exact h

/-- Every sampled point of a fillet arc lies at distance `r` from the fillet
center: mapping `planeDist . center` over the arc gives `n` copies of `r`. -/
lemma fillet_arc_dists (c : ℝ × ℝ) (r : ℝ) (hr : 0 ≤ r) (n : ℕ) :
    (generate_fillet_arc_points c r n).map (fun p => planeDist p c) = List.replicate n r := by
  unfold generate_fillet_arc_points
  rw [List.map_map]
  have h : ∀ a ∈ linspace 0 (Real.pi / 2) n,
      ((fun p => planeDist p c) ∘
        (fun angle => (c.1 + r * Real.cos angle, c.2 + r * Real.sin angle))) a =
      (fun _ => r) a := by
    intro a _
    exact planeDist_offset c r a hr
  rw [List.map_congr_left h, List.map_const']
  congr 1
  simp [linspace]

/-- Pairing each fillet center with its generated arc and measuring the
distances of arc points to the center gives `10` copies of the radius for
every center. -/
lemma zipWith_dist_replicate (l : List (ℝ × ℝ)) (r : ℝ) (hr : 0 ≤ r) :
    List.zipWith (fun center arc => arc.map (fun p => planeDist p center)) l
      (l.map (fun center => generate_fillet_arc_points center r 10)) =
    List.replicate l.length (List.replicate 10 r) := by
  induction l with
  | nil => rfl
  | cons a t ih =>
    simp only [List.map_cons, List.zipWith_cons_cons, List.length_cons, List.replicate_succ]
    rw [fillet_arc_dists a r hr, ih]
    rfl

/-- Reduction of `arm_width_at_radius` at the shipped constants to numeric
literals. -/
lemma arm_width_spec (r : ℝ) :
    arm_width_at_radius specifications r =
      if r ≤ 250 then 50
      else if 505 ≤ r then 100
      else 50 + (100 - 50) * (r - 250) / (505 - 250) := rfl

/-- A parametric line point lies on the circle iff its parameter solves the
line-circle quadratic. -/
lemma onCircle_iff_quadratic (point direction circle_center : ℝ × ℝ) (circle_radius t : ℝ) :
    onCircle circle_center circle_radius (line_point point direction t) ↔
      lci_a direction * t ^ 2 + lci_b point direction circle_center * t +
        lci_c point circle_center circle_radius = 0 := by
  unfold onCircle line_point lci_a lci_b lci_c
  dsimp only
  constructor
  · intro h
    linear_combination h
  · intro h
    linear_combination h

/-- `lci_a` is positive whenever it is non-zero. -/
lemma lci_a_pos (direction : ℝ × ℝ) (ha : lci_a direction ≠ 0) : 0 < lci_a direction := by
  have h : 0 ≤ lci_a direction := by
    unfold lci_a
    positivity
  exact lt_of_le_of_ne h (Ne.symm ha)

/-! ## Claims -/

/-- Claim C3 (spec-modelled): `line_circle_intersection` returns the empty
list when the discriminant is negative (and also for a degenerate zero
direction, without dividing by zero), the single tangency point when the
discriminant is zero, and the two intersection points in increasing-`t` order
when it is positive; every returned point lies on the circle. -/
theorem C3_line_circle_intersection (point direction circle_center : ℝ × ℝ)
    (circle_radius : ℝ) :
    (lci_a direction = 0 →
      line_circle_intersection point direction circle_center circle_radius = []) ∧
    (lci_a direction = 0 ↔ direction = (0, 0)) ∧
    (lci_a direction ≠ 0 →
      lci_disc point direction circle_center circle_radius < 0 →
      line_circle_intersection point direction circle_center circle_radius = []) ∧
    (lci_a direction ≠ 0 →
      lci_disc point direction circle_center circle_radius = 0 →
      line_circle_intersection point direction circle_center circle_radius =
        [line_point point direction
          (-(lci_b point direction circle_center) / (2 * lci_a direction))] ∧
      onCircle circle_center circle_radius
        (line_point point direction
          (-(lci_b point direction circle_center) / (2 * lci_a direction)))) ∧
    (lci_a direction ≠ 0 →
      0 < lci_disc point direction circle_center circle_radius →
      line_circle_intersection point direction circle_center circle_radius =
        [line_point point direction (lci_t1 point direction circle_center circle_radius),
         line_point point direction (lci_t2 point direction circle_center circle_radius)] ∧
      lci_t1 point direction circle_center circle_radius <
        lci_t2 point direction circle_center circle_radius ∧
      onCircle circle_center circle_radius
        (line_point point direction (lci_t1 point direction circle_center circle_radius)) ∧
      onCircle circle_center circle_radius
        (line_point point direction (lci_t2 point direction circle_center circle_radius))) := by
  refine ⟨?_, ?_, ?_, ?_, ?_⟩
  · intro ha0
    unfold line_circle_intersection
    rw [if_pos ha0]
  · constructor
    · intro h
      have h' : direction.1 ^ 2 + direction.2 ^ 2 = 0 := h
      have h1 : direction.1 = 0 := by nlinarith [sq_nonneg direction.1, sq_nonneg direction.2]
      have h2 : direction.2 = 0 := by nlinarith [sq_nonneg direction.1, sq_nonneg direction.2]
      exact Prod.ext h1 h2
    · intro h
      rw [h]
      unfold lci_a
      norm_num
  · intro ha hd
    unfold line_circle_intersection
    rw [if_neg ha, if_pos hd]
  · intro ha hd
    have hapos := lci_a_pos direction ha
    refine ⟨?_, ?_⟩
    · unfold line_circle_intersection
      rw [if_neg ha, if_neg (by rw [hd]; exact lt_irrefl 0), if_pos hd]
    · rw [onCircle_iff_quadratic]
      have hd' : lci_b point direction circle_center ^ 2 -
          4 * lci_a direction * lci_c point circle_center circle_radius = 0 := hd
      field_simp
      nlinarith [hd']
  · intro ha hd
    have hapos := lci_a_pos direction ha
    have hs : Real.sqrt (lci_disc point direction circle_center circle_radius) ^ 2 =
        lci_disc point direction circle_center circle_radius := Real.sq_sqrt hd.le
    have hspos : 0 < Real.sqrt (lci_disc point direction circle_center circle_radius) :=
      Real.sqrt_pos.mpr hd
    have hdisc : lci_disc point direction circle_center circle_radius =
        lci_b point direction circle_center ^ 2 -
          4 * lci_a direction * lci_c point circle_center circle_radius := rfl
    refine ⟨?_, ?_, ?_, ?_⟩
    · unfold line_circle_intersection
      rw [if_neg ha, if_neg (by rw [not_lt]; exact hd.le),
        if_neg (by exact ne_of_gt hd)]
    · unfold lci_t1 lci_t2
      rw [div_lt_div_iff_of_pos_right (by positivity)]
      linarith
    · rw [onCircle_iff_quadratic]
      unfold lci_t1
      field_simp
      nlinarith [hs, hdisc]
    · rw [onCircle_iff_quadratic]
      unfold lci_t2
      field_simp
      nlinarith [hs, hdisc]

/-- Witness for C3: the test case of `test_geometry.py` — the horizontal line
from (-10, 0) through the circle of radius 5 centred at the origin meets it
at (-5, 0) and (5, 0), in increasing-`t` order. -/
theorem C3_line_circle_intersection_witness :
    lci_a ((1 : ℝ), (0 : ℝ)) ≠ 0 ∧
    0 < lci_disc ((-10 : ℝ), (0 : ℝ)) (1, 0) (0, 0) 5 ∧
    line_circle_intersection ((-10 : ℝ), (0 : ℝ)) (1, 0) (0, 0) 5 =
      [((-5 : ℝ), (0 : ℝ)), ((5 : ℝ), (0 : ℝ))] := by
  have ha : lci_a ((1 : ℝ), (0 : ℝ)) ≠ 0 := by
    unfold lci_a
    norm_num
  have hd100 : lci_disc ((-10 : ℝ), (0 : ℝ)) (1, 0) (0, 0) 5 = 100 := by
    unfold lci_disc lci_a lci_b lci_c
    norm_num
  have hd : 0 < lci_disc ((-10 : ℝ), (0 : ℝ)) (1, 0) (0, 0) 5 := by
    rw [hd100]
    norm_num
  have h := (C3_line_circle_intersection ((-10 : ℝ), (0 : ℝ)) (1, 0) (0, 0) 5).2.2.2.2 ha hd
  refine ⟨ha, hd, ?_⟩
  rw [h.1]
  have hs : Real.sqrt (lci_disc ((-10 : ℝ), (0 : ℝ)) (1, 0) (0, 0) 5) = 10 := by
    rw [hd100, show (100 : ℝ) = 10 ^ 2 by norm_num,
      Real.sqrt_sq (by norm_num : (0 : ℝ) ≤ 10)]
  unfold lci_t1 lci_t2 line_point
  rw [hs]
  unfold lci_b lci_a
  norm_num [Prod.ext_iff]

/-- Claim C2 (spec-modelled): `arm_width_at_radius` returns `ARM_WIDTH_INNER`
for `r <= ARM_INNER_RADIUS`, `ARM_WIDTH_OUTER` for `r >= ARM_OUTER_RADIUS`,
the linear interpolation strictly in between, matches the boundary values
exactly (50 mm at 250 mm, 100 mm at 505 mm), and is non-decreasing on
`[ARM_INNER_RADIUS, ARM_OUTER_RADIUS]`. -/
theorem C2_arm_width_at_radius :
    (∀ r : ℝ, r ≤ specifications.ARM_INNER_RADIUS →
      arm_width_at_radius specifications r = specifications.ARM_WIDTH_INNER) ∧
    (∀ r : ℝ, specifications.ARM_OUTER_RADIUS ≤ r →
      arm_width_at_radius specifications r = specifications.ARM_WIDTH_OUTER) ∧
    (∀ r : ℝ, specifications.ARM_INNER_RADIUS < r → r < specifications.ARM_OUTER_RADIUS →
      arm_width_at_radius specifications r =
        specifications.ARM_WIDTH_INNER +
          (specifications.ARM_WIDTH_OUTER - specifications.ARM_WIDTH_INNER) *
            (r - specifications.ARM_INNER_RADIUS) /
            (specifications.ARM_OUTER_RADIUS - specifications.ARM_INNER_RADIUS)) ∧
    arm_width_at_radius specifications 250 = 50 ∧
    arm_width_at_radius specifications 505 = 100 ∧
    (∀ r₁ r₂ : ℝ, 250 ≤ r₁ → r₁ ≤ r₂ → r₂ ≤ 505 →
      arm_width_at_radius specifications r₁ ≤ arm_width_at_radius specifications r₂) := by
  refine ⟨?_, ?_, ?_, ?_, ?_, ?_⟩
  · intro r hr
    have hr' : r ≤ (250 : ℝ) := hr
    rw [arm_width_spec, if_pos hr']
    rfl
  · intro r hr
    have hr' : (505 : ℝ) ≤ r := hr
    have h1 : ¬ r ≤ (250 : ℝ) := by
      intro h
      have : (505 : ℝ) ≤ 250 := le_trans hr' h
      norm_num at this
    rw [arm_width_spec, if_neg h1, if_pos hr']
    rfl
  · intro r h1 h2
    have h1' : (250 : ℝ) < r := h1
    have h2' : r < (505 : ℝ) := h2
    have ha : ¬ r ≤ (250 : ℝ) := by
      intro h
      exact absurd (lt_of_lt_of_le h1' h) (lt_irrefl _)
    have hb : ¬ (505 : ℝ) ≤ r := by
      intro h
      exact absurd (lt_of_lt_of_le h2' h) (lt_irrefl _)
    rw [arm_width_spec, if_neg ha, if_neg hb]
    rfl
  · rw [arm_width_spec]
    norm_num
  · rw [arm_width_spec]
    norm_num
  · intro r₁ r₂ h₁ h₁₂ h₂
    rw [arm_width_spec, arm_width_spec]
    split_ifs <;> linarith

/-- Witness for C2: monotonicity applied at the concrete radii 300 and 400. -/
theorem C2_arm_width_at_radius_witness :
    (250 : ℝ) ≤ 300 ∧ (300 : ℝ) ≤ 400 ∧ (400 : ℝ) ≤ 505 ∧
    arm_width_at_radius specifications 300 ≤ arm_width_at_radius specifications 400 :=
  ⟨by norm_num, by norm_num, by norm_num,
    C2_arm_width_at_radius.2.2.2.2.2 300 400 (by norm_num) (by norm_num) (by norm_num)⟩

/-- Claim C9: for every arm centerline angle, the fillet data of
`calculate_arm_vertices` has exactly four centers, one per trapezoid corner,
each offset from its corner vertex by `CORNER_FILLET_RADIUS` in the direction
`arm_angle + 180° ± 45°` (inner corners) or `arm_angle ± 45°` (outer corners,
`+45°` for left and `-45°` for right), each center at distance
`CORNER_FILLET_RADIUS` from its vertex, and each fillet contributes a
quarter-circle arc of `num_points = 10` sampled points (the `k`-th at angle
`k * (π/2) / 9`) all at distance `CORNER_FILLET_RADIUS` from the center. -/
theorem C9_fillet_data (arm_angle_deg : ℝ) :
    ((calculate_arm_vertices specifications arm_angle_deg).2.2).centers =
      [((arm_inner_left specifications (radians arm_angle_deg)).1 +
          specifications.CORNER_FILLET_RADIUS *
            Real.cos (radians arm_angle_deg + Real.pi + Real.pi / 4),
        (arm_inner_left specifications (radians arm_angle_deg)).2 +
          specifications.CORNER_FILLET_RADIUS *
            Real.sin (radians arm_angle_deg + Real.pi + Real.pi / 4)),
       ((arm_inner_right specifications (radians arm_angle_deg)).1 +
          specifications.CORNER_FILLET_RADIUS *
            Real.cos (radians arm_angle_deg + Real.pi - Real.pi / 4),
        (arm_inner_right specifications (radians arm_angle_deg)).2 +
          specifications.CORNER_FILLET_RADIUS *
            Real.sin (radians arm_angle_deg + Real.pi - Real.pi / 4)),
       ((arm_outer_left specifications (radians arm_angle_deg)).1 +
          specifications.CORNER_FILLET_RADIUS *
            Real.cos (radians arm_angle_deg + Real.pi / 4),
        (arm_outer_left specifications (radians arm_angle_deg)).2 +
          specifications.CORNER_FILLET_RADIUS *
            Real.sin (radians arm_angle_deg + Real.pi / 4)),
       ((arm_outer_right specifications (radians arm_angle_deg)).1 +
          specifications.CORNER_FILLET_RADIUS *
            Real.cos (radians arm_angle_deg - Real.pi / 4),
        (arm_outer_right specifications (radians arm_angle_deg)).2 +
          specifications.CORNER_FILLET_RADIUS *
            Real.sin (radians arm_angle_deg - Real.pi / 4))] ∧
    ((calculate_arm_vertices specifications arm_angle_deg).2.2).centers.length = 4 ∧
    (((calculate_arm_vertices specifications arm_angle_deg).2.2).centers.zip
        [arm_inner_left specifications (radians arm_angle_deg),
         arm_inner_right specifications (radians arm_angle_deg),
         arm_outer_left specifications (radians arm_angle_deg),
         arm_outer_right specifications (radians arm_angle_deg)]).map
        (fun cv => planeDist cv.1 cv.2) =
      List.replicate 4 specifications.CORNER_FILLET_RADIUS ∧
    ((calculate_arm_vertices specifications arm_angle_deg).2.2).radius =
      specifications.CORNER_FILLET_RADIUS ∧
    ((calculate_arm_vertices specifications arm_angle_deg).2.2).arcs =
      ((calculate_arm_vertices specifications arm_angle_deg).2.2).centers.map
        (fun center =>
          generate_fillet_arc_points center specifications.CORNER_FILLET_RADIUS 10) ∧
    (∀ (c : ℝ × ℝ),
      generate_fillet_arc_points c specifications.CORNER_FILLET_RADIUS 10 =
        (List.range 10).map
          (fun (k : ℕ) =>
            (c.1 + specifications.CORNER_FILLET_RADIUS *
                Real.cos ((k : ℝ) * (Real.pi / 2) / 9),
             c.2 + specifications.CORNER_FILLET_RADIUS *
                Real.sin ((k : ℝ) * (Real.pi / 2) / 9)))) ∧
    (List.zipWith (fun center arc => arc.map (fun p => planeDist p center))
        ((calculate_arm_vertices specifications arm_angle_deg).2.2).centers
        ((calculate_arm_vertices specifications arm_angle_deg).2.2).arcs =
      List.replicate 4 (List.replicate 10 specifications.CORNER_FILLET_RADIUS)) := by
  have hr : (0 : ℝ) ≤ specifications.CORNER_FILLET_RADIUS := by
    show (0 : ℝ) ≤ 5
    norm_num
  refine ⟨rfl, rfl, ?_, rfl, rfl, ?_, ?_⟩
  · show [planeDist _ _, planeDist _ _, planeDist _ _, planeDist _ _] = _
    have h1 := planeDist_offset (arm_inner_left specifications (radians arm_angle_deg))
      specifications.CORNER_FILLET_RADIUS
      (radians arm_angle_deg + Real.pi + Real.pi / 4) hr
    have h2 := planeDist_offset (arm_inner_right specifications (radians arm_angle_deg))
      specifications.CORNER_FILLET_RADIUS
      (radians arm_angle_deg + Real.pi - Real.pi / 4) hr
    have h3 := planeDist_offset (arm_outer_left specifications (radians arm_angle_deg))
      specifications.CORNER_FILLET_RADIUS
      (radians arm_angle_deg + Real.pi / 4) hr
    have h4 := planeDist_offset (arm_outer_right specifications (radians arm_angle_deg))
      specifications.CORNER_FILLET_RADIUS
      (radians arm_angle_deg - Real.pi / 4) hr
    rw [show List.replicate 4 specifications.CORNER_FILLET_RADIUS =
      [specifications.CORNER_FILLET_RADIUS, specifications.CORNER_FILLET_RADIUS,
       specifications.CORNER_FILLET_RADIUS, specifications.CORNER_FILLET_RADIUS] from rfl]
    exact congrArg₂ _ h1 (congrArg₂ _ h2 (congrArg₂ _ h3 (congrArg₂ _ h4 rfl)))
  · intro c
    unfold generate_fillet_arc_points linspace
    rw [List.map_map]
    refine List.map_congr_left ?_
    intro k _
    simp only [Function.comp_apply]
    norm_num
  · exact zipWith_dist_replicate
      ((calculate_arm_vertices specifications arm_angle_deg).2.2).centers
      specifications.CORNER_FILLET_RADIUS hr

/-- Claim C1 fails on the code: at arm centerline angle 0 the outer corner
returned by `find_line_arc_intersection` lies strictly closer to the arc
center of `calculate_concave_arc_geometry` than `ARM_END_ARC_RADIUS`
(about 514.3 mm instead of 532.5 mm), so the concave arc does not pass
through it; the function places the corner at the hard-coded radius
`0.85 * OUTER_HOLE_PCD / 2` instead of intersecting the side line with the
arc. -/
theorem C1_outer_corner_not_on_arc :
    planeDist (arm_outer_left specifications (radians 0))
        ((calculate_concave_arc_geometry specifications (radians 0)
          (specifications.ARM_WIDTH_OUTER / 2)).1) <
      specifications.ARM_END_ARC_RADIUS := by
  have hrad : radians 0 = 0 := by
    unfold radians
    ring
  rw [hrad]
  have hcenter : (calculate_concave_arc_geometry specifications 0
      (specifications.ARM_WIDTH_OUTER / 2)).1 = ((942.5 : ℝ), (0 : ℝ)) := by
    unfold calculate_concave_arc_geometry
    norm_num [specifications, Prod.ext_iff]
  have hcorner : arm_outer_left specifications 0 =
      (433.5 * Real.cos (Real.arctan (50 / 433.5)),
       433.5 * Real.sin (Real.arctan (50 / 433.5))) := by
    unfold arm_outer_left find_line_arc_intersection
    norm_num [specifications, atan2_of_pos, Prod.ext_iff]
  rw [hcenter, hcorner]
  have hR : specifications.ARM_END_ARC_RADIUS = (532.5 : ℝ) := rfl
  rw [hR]
  unfold planeDist
  dsimp only
  rw [Real.cos_arctan, Real.sin_arctan]
  have hu0 : 0 < Real.sqrt (1 + (50 / 433.5) ^ 2) := Real.sqrt_pos.mpr (by positivity)
  have hu2 : Real.sqrt (1 + (50 / 433.5) ^ 2) ^ 2 = 1 + (50 / 433.5) ^ 2 :=
    Real.sq_sqrt (by positivity)
  have hu1 : 1 ≤ Real.sqrt (1 + (50 / 433.5) ^ 2) := by
    nlinarith [hu0, hu2]
  rw [Real.sqrt_lt' (by norm_num : (0 : ℝ) < 532.5)]
  have hune : Real.sqrt (1 + (50 / 433.5) ^ 2) ≠ 0 := ne_of_gt hu0
  have heq : (433.5 * (1 / Real.sqrt (1 + (50 / 433.5) ^ 2)) - 942.5) ^ 2 +
      (433.5 * ((50 / 433.5) / Real.sqrt (1 + (50 / 433.5) ^ 2)) - 0) ^ 2 =
      ((433.5 - 942.5 * Real.sqrt (1 + (50 / 433.5) ^ 2)) ^ 2 + 50 ^ 2) /
        Real.sqrt (1 + (50 / 433.5) ^ 2) ^ 2 := by
    field_simp
    ring
  rw [heq, div_lt_iff₀ (by positivity : (0 : ℝ) < Real.sqrt (1 + (50 / 433.5) ^ 2) ^ 2)]
  nlinarith [hu2, hu1]

/-- Claim C5: for every arm centerline angle, the outline returned by
`calculate_arm_vertices` is the closed polygon inner-left, outer-left, the
concave outer-edge points, outer-right, inner-right, back to inner-left, and
its first point equals its last point. -/
theorem C5_outline_closed (s : Specs) (arm_angle_deg : ℝ) :
    (calculate_arm_vertices s arm_angle_deg).1 =
      arm_inner_left s (radians arm_angle_deg) ::
        arm_outer_left s (radians arm_angle_deg) ::
        ((calculate_arm_vertices s arm_angle_deg).2.1 ++
          [arm_outer_right s (radians arm_angle_deg),
           arm_inner_right s (radians arm_angle_deg),
           arm_inner_left s (radians arm_angle_deg)]) ∧
    (calculate_arm_vertices s arm_angle_deg).1.head? =
      (calculate_arm_vertices s arm_angle_deg).1.getLast? := by
  have hshape : (calculate_arm_vertices s arm_angle_deg).1 =
      arm_inner_left s (radians arm_angle_deg) ::
        arm_outer_left s (radians arm_angle_deg) ::
        ((calculate_arm_vertices s arm_angle_deg).2.1 ++
          [arm_outer_right s (radians arm_angle_deg),
           arm_inner_right s (radians arm_angle_deg),
           arm_inner_left s (radians arm_angle_deg)]) := rfl
  refine ⟨hshape, ?_⟩
  rw [hshape]
  have hconcat : arm_inner_left s (radians arm_angle_deg) ::
      arm_outer_left s (radians arm_angle_deg) ::
      ((calculate_arm_vertices s arm_angle_deg).2.1 ++
        [arm_outer_right s (radians arm_angle_deg),
         arm_inner_right s (radians arm_angle_deg),
         arm_inner_left s (radians arm_angle_deg)]) =
      (arm_inner_left s (radians arm_angle_deg) ::
        arm_outer_left s (radians arm_angle_deg) ::
        ((calculate_arm_vertices s arm_angle_deg).2.1 ++
          [arm_outer_right s (radians arm_angle_deg),
           arm_inner_right s (radians arm_angle_deg)])) ++
        [arm_inner_left s (radians arm_angle_deg)] := by
    simp
  rw [hconcat, List.getLast?_concat]
  rfl

/-- Claim C6: for each arm angle in {0, 90, 180, 270} degrees, reflecting
across the line through the origin at the arm angle maps the inner-left
vertex to the inner-right vertex and the left outer intersection point to the
right outer intersection point of `calculate_arm_vertices`. -/
theorem C6_mirror_symmetry (arm_angle_deg : ℝ)
    (h : arm_angle_deg = 0 ∨ arm_angle_deg = 90 ∨ arm_angle_deg = 180 ∨ arm_angle_deg = 270) :
    reflectAcross (radians arm_angle_deg)
        (arm_inner_left specifications (radians arm_angle_deg)) =
      arm_inner_right specifications (radians arm_angle_deg) ∧
    reflectAcross (radians arm_angle_deg)
        (arm_outer_left specifications (radians arm_angle_deg)) =
      arm_outer_right specifications (radians arm_angle_deg) := by
  refine ⟨reflect_inner_vertices specifications (radians arm_angle_deg), ?_⟩
  refine reflect_outer_corners specifications (radians arm_angle_deg) ?_
  show (0 : ℝ) < 1020 / 2 * 0.85
  norm_num

/-- Claim C7: `calculate_hole_coordinates` returns a central list with the
single configured origin point, an inner list of exactly `INNER_HOLE_COUNT`
points whose `i`-th entry sits at angle `i * 360 / INNER_HOLE_COUNT` degrees
and at distance `INNER_HOLE_PCD / 2` from the origin, and an outer list of
points at distance `OUTER_HOLE_PCD / 2` at the angles `ARM_ANGLES`, in angle
order. -/
theorem C7_hole_coordinates :
    (calculate_hole_coordinates specifications).central =
      [(specifications.CENTRAL_HOLE_X, specifications.CENTRAL_HOLE_Y)] ∧
    (calculate_hole_coordinates specifications).inner.length =
      specifications.INNER_HOLE_COUNT ∧
    (∀ i : ℕ, i < specifications.INNER_HOLE_COUNT →
      (calculate_hole_coordinates specifications).inner[i]? =
        some ((specifications.INNER_HOLE_PCD / 2) *
                Real.cos (radians ((i : ℝ) * (360 / (specifications.INNER_HOLE_COUNT : ℝ)))),
              (specifications.INNER_HOLE_PCD / 2) *
                Real.sin (radians ((i : ℝ) * (360 / (specifications.INNER_HOLE_COUNT : ℝ)))))) ∧
    (∀ p ∈ (calculate_hole_coordinates specifications).inner,
      planeDist p (0, 0) = specifications.INNER_HOLE_PCD / 2) ∧
    (calculate_hole_coordinates specifications).outer =
      specifications.ARM_ANGLES.map
        (fun angle_deg => ((specifications.OUTER_HOLE_PCD / 2) * Real.cos (radians angle_deg),
                           (specifications.OUTER_HOLE_PCD / 2) * Real.sin (radians angle_deg))) ∧
    (∀ p ∈ (calculate_hole_coordinates specifications).outer,
      planeDist p (0, 0) = specifications.OUTER_HOLE_PCD / 2) := by
  refine ⟨rfl, rfl, ?_, ?_, rfl, ?_⟩
  · intro i hi
    simp only [calculate_hole_coordinates, Specs.INNER_HOLE_ANGLES,
      Specs.INNER_HOLE_ANGULAR_SPACING, List.getElem?_map,
      List.getElem?_range hi]
    rfl
  · intro p hp
    simp only [calculate_hole_coordinates, List.mem_map] at hp
    obtain ⟨a, ha, rfl⟩ := hp
    refine planeDist_polar _ _ ?_
    show (0 : ℝ) ≤ 90 / 2
    norm_num
  · intro p hp
    simp only [calculate_hole_coordinates, List.mem_map] at hp
    obtain ⟨a, ha, rfl⟩ := hp
    refine planeDist_polar _ _ ?_
    show (0 : ℝ) ≤ 1020 / 2
    norm_num

/-- Witness for C7: the first inner hole (index 0). -/
theorem C7_hole_coordinates_witness :
    0 < specifications.INNER_HOLE_COUNT ∧
    (calculate_hole_coordinates specifications).inner[0]? =
      some ((specifications.INNER_HOLE_PCD / 2) *
              Real.cos (radians (((0 : ℕ) : ℝ) * (360 / (specifications.INNER_HOLE_COUNT : ℝ)))),
            (specifications.INNER_HOLE_PCD / 2) *
              Real.sin (radians (((0 : ℕ) : ℝ) * (360 / (specifications.INNER_HOLE_COUNT : ℝ))))) :=
  ⟨by decide, C7_hole_coordinates.2.2.1 0 (by decide)⟩

/-- Witness for C6 at the concrete arm angle 0 degrees. -/
theorem C6_mirror_symmetry_witness :
    ((0 : ℝ) = 0 ∨ (0 : ℝ) = 90 ∨ (0 : ℝ) = 180 ∨ (0 : ℝ) = 270) ∧
    (reflectAcross (radians 0) (arm_inner_left specifications (radians 0)) =
       arm_inner_right specifications (radians 0) ∧
     reflectAcross (radians 0) (arm_outer_left specifications (radians 0)) =
       arm_outer_right specifications (radians 0)) :=
  ⟨Or.inl rfl, C6_mirror_symmetry 0 (Or.inl rfl)⟩

/-- Claim C8: `calculate_overall_dimensions` returns
`outer_ring_center_radius = OUTER_HOLE_PCD / 2`,
`overall_radius = outer_ring_center_radius + OUTER_RING_DIAMETER / 2`,
`central_opening_diameter = 2 * CENTRAL_OPENING_RADIUS`, and for every
specification the round-trip `overall_diameter = 2 * overall_radius` holds. -/
theorem C8_overall_dimensions (s : Specs) :
    (calculate_overall_dimensions s).outer_ring_center_radius = s.OUTER_HOLE_PCD / 2 ∧
    (calculate_overall_dimensions s).overall_radius =
      (calculate_overall_dimensions s).outer_ring_center_radius + s.OUTER_RING_DIAMETER / 2 ∧
    (calculate_overall_dimensions s).central_opening_diameter =
      2 * s.CENTRAL_OPENING_RADIUS ∧
    (calculate_overall_dimensions s).overall_diameter =
      2 * (calculate_overall_dimensions s).overall_radius :=
  ⟨rfl, rfl, rfl, rfl⟩

/-- Claim C10: for every assignment of the specification constants,
`validate_geometry` returns an empty `errors` list and `geometry_valid = true`;
`geometry_valid` is defined as the `errors` list being empty, so only the
`warnings` list can ever be non-empty. -/
theorem C10_errors_always_empty (s : Specs) :
    (validate_geometry s).errors = [] ∧
    (validate_geometry s).geometry_valid = true ∧
    (validate_geometry s).geometry_valid = ((validate_geometry s).errors.length == 0) :=
  ⟨rfl, rfl, rfl⟩

/-- Claim C4 counterexample: for a specification in which
`ring_inner_radius - ARM_OUTER_RADIUS` is negative (the arm sticks 95 mm into
the ring), `validate_geometry` still returns an empty `errors` list — the
claimed manufacturing-clearance error check does not exist in the code. -/
theorem C4_counterexample :
    specsWithInterference.ring_inner_radius - specsWithInterference.ARM_OUTER_RADIUS < 0 ∧
    (validate_geometry specsWithInterference).errors = [] := by
  constructor
  · show (1020 : ℝ) / 2 - 10 / 2 - 600 < 0
    norm_num
  · rfl

/-- Claim C4 (amended): `validate_geometry` performs no manufacturing-clearance
check at all; its `errors` list is empty for every specification — in
particular it is empty (with no clearance entry) when `ring_inner_radius`
equals `ARM_OUTER_RADIUS` exactly, but it is also empty when the clearance is
negative. -/
theorem C4_no_clearance_check (s : Specs) :
    (validate_geometry s).errors = [] ∧
    (s.ring_inner_radius = s.ARM_OUTER_RADIUS → (validate_geometry s).errors = []) ∧
    (s.ring_inner_radius - s.ARM_OUTER_RADIUS < 0 → (validate_geometry s).errors = []) :=
  ⟨rfl, fun _ => rfl, fun _ => rfl⟩

/-- Witness for C4: the shipped constants give exactly tangent ring and arm
(`ring_inner_radius = 505 = ARM_OUTER_RADIUS`), and the validation result has
zero errors there. -/
theorem C4_no_clearance_check_witness :
    specifications.ring_inner_radius = specifications.ARM_OUTER_RADIUS ∧
    (validate_geometry specifications).errors = [] := by
  constructor
  · show (1020 : ℝ) / 2 - 10 / 2 = 505
    norm_num
  · exact (C4_no_clearance_check specifications).2.1 (by
      show (1020 : ℝ) / 2 - 10 / 2 = 505
      norm_num)
